import Mathlib

/-!
Verification of the durable-object push-notification scheduler.

This file gives a shallow embedding of the core of the repository
MatthewSteeples/durable-object-starter and proves properties of it.
The repository contains two variants of the durable object:

- the SQL variant (src/index.ts together with the SQL MyDurableObject
  class): raw SqlStorage with a subscription table, delete-then-insert
  replace semantics, defensive schema migration in ensureSchema, and an
  alarm handler that sends a primary push notification followed by a
  debug notification on success;
- the drizzle variant (the alternative MyDurableObject together with
  db/index.ts, db/SubscriptionRecords.ts): a drizzle-managed
  subscription_records table whose create operation is an upsert
  (insert with onConflictDoUpdate on endpoint), and an alarm handler
  sending a single notification with the GCM key always attached.

Machine state (SQLite table contents, the alarm slot) is modelled
explicitly; the JavaScript string operations the code relies on
(URL host extraction, String.prototype.includes, the first-occurrence
String.prototype.replace) are modelled as executable functions on
character lists.
-/

/-! ## String utilities modelling the JavaScript operations used by the code -/

/-- Model of JS startsWith on character lists: the first list is a leading
piece of the second. -/
def startsWithL : List Char → List Char → Bool
  | [], _ => true
  | _ :: _, [] => false
  | a :: as, b :: bs => a = b && startsWithL as bs

/-- Model of JS String.prototype.includes: does the pattern occur inside
the haystack? -/
def containsSub (pat : List Char) : List Char → Bool
  | [] => startsWithL pat []
  | c :: cs => startsWithL pat (c :: cs) || containsSub pat cs

/-- host.includes(pat) from the alarm handler. -/
def strIncludes (hay pat : String) : Bool :=
  containsSub pat.toList hay.toList

/-- Model of JS String.prototype.replace with a string pattern: replaces
only the first occurrence, and leaves the string unchanged when the
pattern does not occur. -/
def replaceFirstL (pat repl : List Char) : List Char → List Char
  | [] => if pat.isEmpty then repl else []
  | c :: cs =>
    if startsWithL pat (c :: cs) then repl ++ (c :: cs).drop pat.length
    else c :: replaceFirstL pat repl cs

/-- endpoint.replace(host, DEBUG_URL) from the alarm handler. -/
def strReplaceFirst (s pat repl : String) : String :=
  String.mk (replaceFirstL pat.toList repl.toList s.toList)

/-- Drop everything through the first "://" of a URL string, the way
new URL(s) isolates the part after the scheme. -/
def afterSchemeL : List Char → List Char
  | [] => []
  | ':' :: '/' :: '/' :: rest => rest
  | _ :: rest => afterSchemeL rest

/-- Take the authority part, up to the first path slash. -/
def takeUntilSlash : List Char → List Char
  | [] => []
  | '/' :: _ => []
  | c :: rest => c :: takeUntilSlash rest

/-- new URL(endpoint).host for the scheme://host/path URLs handled by the
code (push-service endpoints). -/
def urlHost (s : String) : String :=
  String.mk (takeUntilSlash (afterSchemeL s.toList))

/-! ## Data model -/

/-- The persisted subscription record: the three columns of the
subscription table (SQL variant) and of subscription_records (drizzle
variant). -/
structure SubscriptionRecord where
  endpoint : String
  keys_p256dh : String
  keys_auth : String
deriving DecidableEq, Repr

/-- The web-push PushSubscription value handed to sendNotification. -/
structure PushSubscription where
  endpoint : String
  p256dh : String
  auth : String
deriving DecidableEq, Repr

/-- The configuration bindings the durable object reads. A secret whose
value is the empty string models an absent (JS-falsy) binding. -/
structure EnvCfg where
  VAPID_PUBLIC_KEY : String
  VAPID_PRIVATE_KEY : String
  GCM_APIKey : String
  DEBUG_URL : String
deriving DecidableEq, Repr

/-- The web-push RequestOptions value the alarm handler builds. -/
structure RequestOptions where
  TTL : Option Nat
  urgency : String
  vapidSubject : String
  vapidPublicKey : String
  vapidPrivateKey : String
  gcmAPIKey : Option String
deriving DecidableEq, Repr

/-- The structured error a failed sendNotification rejects with. -/
structure WebPushError where
  statusCode : Nat
  body : String
  headers : List (String × String)
  endpoint : String
deriving DecidableEq, Repr

/-- The result of a successful sendNotification. -/
structure SendResult where
  statusCode : Nat
  body : String
deriving DecidableEq, Repr

/-- Durable per-partition state: the subscription table rows and the
single scheduled wake-up time (milliseconds), or none. -/
structure DOState where
  store : List SubscriptionRecord
  alarm : Option Nat
deriving DecidableEq, Repr

/-- One invocation of the external delivery transport, as observed at the
sendNotification call site. -/
structure SendCall where
  sub : PushSubscription
  payload : String
  options : RequestOptions
deriving DecidableEq, Repr

/-- Outcome of one run of the alarm handler: resulting durable state, the
trace of transport invocations, and the error message it threw to its
caller, if any (none means the handler returned normally). -/
structure AlarmResult where
  state : DOState
  calls : List SendCall
  thrown : Option String
deriving DecidableEq, Repr

/-- The external delivery transport: sendNotification from web-push. -/
abbrev Transport : Type :=
  PushSubscription → String → RequestOptions → Except WebPushError SendResult

/-! ## SubscriptionStore: SQL variant (registerNotification transaction) -/

/-- DELETE FROM subscription; (first statement of the registration
transaction in the SQL variant). -/
def deleteAllRows (_s : List SubscriptionRecord) : List SubscriptionRecord := []

/-- INSERT INTO subscription (endpoint, keys_p256dh, keys_auth)
VALUES (?, ?, ?); with the endpoint primary-key constraint: the insert
fails when a row with the same endpoint is already present. -/
def insertRow (s : List SubscriptionRecord) (r : SubscriptionRecord) :
    Except String (List SubscriptionRecord) :=
  if s.any (fun x => x.endpoint == r.endpoint) then
    Except.error "UNIQUE constraint failed: subscription.endpoint"
  else Except.ok (s ++ [r])

/-- The store mutation of registerNotification in the SQL variant:
one transaction deleting every row and then inserting the new record. -/
def registerReplace (s : List SubscriptionRecord) (r : SubscriptionRecord) :
    Except String (List SubscriptionRecord) :=
  insertRow (deleteAllRows s) r

/-! ## SubscriptionStore: drizzle variant (create in db/index.ts) -/

/-- create from db/index.ts: an insert with onConflictDoUpdate targeting
the endpoint column — an upsert, not a replace of the whole table. -/
def createUpsert (s : List SubscriptionRecord) (r : SubscriptionRecord) :
    List SubscriptionRecord :=
  if s.any (fun x => x.endpoint == r.endpoint) then
    s.map (fun x => if x.endpoint == r.endpoint then r else x)
  else s ++ [r]

/-! ## AlarmScheduler -/

/-- The fixed arming delay: 10 * 1000 milliseconds in both variants. -/
def armDelayMs : Nat := 10 * 1000

/-- The alarm logic of registerNotification in the SQL variant: read the
current alarm; if none is set, or the existing one is at or before now,
set a new alarm at now plus the fixed delay; otherwise leave it alone.
Returns the new alarm slot and whether setAlarm was called. -/
def registerAlarm (now : Nat) (al : Option Nat) : Option Nat × Bool :=
  match al with
  | none => (some (now + armDelayMs), true)
  | some t => if t ≤ now then (some (now + armDelayMs), true) else (some t, false)

/-- The alarm logic of registerNotification in the drizzle variant,
textually identical to the SQL variant. -/
def registerAlarmDrizzle (now : Nat) (al : Option Nat) : Option Nat × Bool :=
  match al with
  | none => (some (now + armDelayMs), true)
  | some t => if t ≤ now then (some (now + armDelayMs), true) else (some t, false)

/-! ## DeliveryWorker: the alarm handlers -/

/-- The constant notification payload. -/
def pushPayload : String := "Hello from Cloudflare Workers!"

/-- Convert a stored record to the PushSubscription passed to the
transport. -/
def toPushSub (sub : SubscriptionRecord) : PushSubscription :=
  { endpoint := sub.endpoint, p256dh := sub.keys_p256dh, auth := sub.keys_auth }

/-- The RequestOptions the SQL variant builds: TTL 60, normal urgency,
VAPID details from the environment, and the GCM API key attached exactly
when the endpoint host contains fcm.googleapis.com. -/
def mkOptionsSql (env : EnvCfg) (sub : SubscriptionRecord) : RequestOptions :=
  { TTL := some 60
    urgency := "normal"
    vapidSubject := "mailto:matthew@mercuryit.co.uk"
    vapidPublicKey := env.VAPID_PUBLIC_KEY
    vapidPrivateKey := env.VAPID_PRIVATE_KEY
    gcmAPIKey :=
      if strIncludes (urlHost sub.endpoint) "fcm.googleapis.com" then
        some env.GCM_APIKey
      else none }

/-- The RequestOptions the drizzle variant builds: no TTL (commented out
in the source), normal urgency, and the GCM API key attached
unconditionally. -/
def mkOptionsDrizzle (env : EnvCfg) : RequestOptions :=
  { TTL := none
    urgency := "normal"
    vapidSubject := "mailto: <matthew@mercuryit.co.uk>"
    vapidPublicKey := env.VAPID_PUBLIC_KEY
    vapidPrivateKey := env.VAPID_PRIVATE_KEY
    gcmAPIKey := some env.GCM_APIKey }

/-- The alarm handler of the SQL variant. Reads the first stored row
(throwing to the caller when the store is empty — this read sits outside
the try block). Inside the try block: the missing-secret checks throw,
the primary notification is sent, and on its success a second, debug
notification is sent to the endpoint with the host replaced by
DEBUG_URL; only when both succeed are the alarm and the whole store
deleted. Every error raised inside the try block is caught, logged and
swallowed, leaving the state untouched and the handler returning
normally. The alarm slot passed in is the state as the runtime presents
it to the handler (the matured alarm already consumed). -/
def alarmSql (env : EnvCfg) (tr : Transport) (s : DOState) : AlarmResult :=
  match s.store.head? with
  | none => { state := s, calls := [], thrown := some "No subscription found in storage." }
  | some sub =>
    if env.VAPID_PRIVATE_KEY = "" then { state := s, calls := [], thrown := none }
    else if env.GCM_APIKey = "" then { state := s, calls := [], thrown := none }
    else
      let host := urlHost sub.endpoint
      let opts := mkOptionsSql env sub
      let ps := toPushSub sub
      let c1 : SendCall := { sub := ps, payload := pushPayload, options := opts }
      match tr ps pushPayload opts with
      | Except.error _ => { state := s, calls := [c1], thrown := none }
      | Except.ok _ =>
        let debugUrl := strReplaceFirst sub.endpoint host env.DEBUG_URL
        let dps : PushSubscription :=
          { endpoint := debugUrl, p256dh := sub.keys_p256dh, auth := sub.keys_auth }
        let c2 : SendCall := { sub := dps, payload := pushPayload, options := opts }
        match tr dps pushPayload opts with
        | Except.error _ => { state := s, calls := [c1, c2], thrown := none }
        | Except.ok _ =>
          { state := { store := [], alarm := none }, calls := [c1, c2], thrown := none }

/-- The alarm handler of the drizzle variant: same shape, but a single
notification (the debug send is commented out in the source) with the
GCM key always attached, and on success the alarm and store are
cleared. -/
def alarmDrizzle (env : EnvCfg) (tr : Transport) (s : DOState) : AlarmResult :=
  match s.store.head? with
  | none => { state := s, calls := [], thrown := some "No subscription found in storage." }
  | some sub =>
    if env.VAPID_PRIVATE_KEY = "" then { state := s, calls := [], thrown := none }
    else if env.GCM_APIKey = "" then { state := s, calls := [], thrown := none }
    else
      let opts := mkOptionsDrizzle env
      let ps := toPushSub sub
      let c1 : SendCall := { sub := ps, payload := pushPayload, options := opts }
      match tr ps pushPayload opts with
      | Except.error _ => { state := s, calls := [c1], thrown := none }
      | Except.ok _ =>
        { state := { store := [], alarm := none }, calls := [c1], thrown := none }

/-! ## SchemaMigrator -/

/-- One entry of PRAGMA table_info: a column name and its primary-key
ordinal (0 when the column is not part of the primary key). -/
structure Col where
  name : String
  pk : Nat
deriving DecidableEq, Repr

/-- A stored row, as a finite map from column name to text value. -/
abbrev Row := List (String × String)

/-- The physical subscription table: its PRAGMA column information and
its rows. An absent table is modelled by an empty column list. -/
structure Table where
  cols : List Col
  rows : List Row
deriving DecidableEq, Repr

/-- Read one column of a row. Used only for columns known to exist. -/
def rowGet (r : Row) (c : String) : String :=
  ((r.find? (fun p => p.1 == c)).map Prod.snd).getD ""

/-- The expected column set of the subscription table. -/
def expectedCols : List String := ["endpoint", "keys_p256dh", "keys_auth"]

/-- The columns of a freshly created subscription table: endpoint is the
primary key. -/
def freshCols : List Col :=
  [{ name := "endpoint", pk := 1 },
   { name := "keys_p256dh", pk := 0 },
   { name := "keys_auth", pk := 0 }]

/-- What one call of ensureSchema did to storage. -/
inductive SchemaAction where
  | noAction
  | created
  | migrated
  | memoized
deriving DecidableEq, Repr

/-- SQLite MAX on two text values (binary collation). -/
def maxS (a b : String) : String := if a < b then b else a

/-- First-occurrence-preserving list of distinct strings. -/
def distinctL : List String → List String
  | [] => []
  | x :: xs => x :: (distinctL xs).filter (fun y => y != x)

/-- The body of ensureSchema in the SQL variant, acting on the physical
table. Returns the table after the call together with the action taken,
or the SQLite error aborting the migration transaction.

Faithful to the source: when no table exists it is created fresh; when
every expected column is present and endpoint is a primary-key column,
nothing is done; otherwise a migration runs inside one transaction. The
migration INSERT comes in two shapes: when the old table has an endpoint
column, the statement SELECT endpoint, MAX(keys_p256dh), MAX(keys_auth)
FROM subscription GROUP BY endpoint is issued verbatim — it references
keys_p256dh and keys_auth whether or not they exist, so a missing one is
an SQLite no-such-column error; only when endpoint itself is missing is
the selectParts list with empty-string substitution used, and then every
copied row carries an empty endpoint, so a second row violates the new
primary key. -/
def ensureSchema (t : Table) : Except String (Table × SchemaAction) :=
  let existingCols := t.cols.map Col.name
  if existingCols.isEmpty then
    Except.ok ({ cols := freshCols, rows := [] }, SchemaAction.created)
  else
    let missing := expectedCols.any (fun c => !(existingCols.contains c))
    let needsMigration : Bool :=
      if missing then true
      else
        match t.cols.find? (fun c => c.name == "endpoint") with
        | none => true
        | some info => decide (info.pk = 0)
    if needsMigration then
      if existingCols.contains "endpoint" then
        if !(existingCols.contains "keys_p256dh") then
          Except.error "no such column: keys_p256dh"
        else if !(existingCols.contains "keys_auth") then
          Except.error "no such column: keys_auth"
        else
          let eps := distinctL (t.rows.map (fun r => rowGet r "endpoint"))
          let newRows := eps.map (fun e =>
            let grp := t.rows.filter (fun r => rowGet r "endpoint" == e)
            [("endpoint", e),
             ("keys_p256dh", (grp.map (fun r => rowGet r "keys_p256dh")).foldl maxS ""),
             ("keys_auth", (grp.map (fun r => rowGet r "keys_auth")).foldl maxS "")])
          Except.ok ({ cols := freshCols, rows := newRows }, SchemaAction.migrated)
      else
        let newRows := t.rows.map (fun r =>
          expectedCols.map (fun c =>
            (c, if existingCols.contains c then rowGet r c else "")))
        if (newRows.map (fun r => rowGet r "endpoint")).Nodup then
          Except.ok ({ cols := freshCols, rows := newRows }, SchemaAction.migrated)
        else
          Except.error "UNIQUE constraint failed: subscription_new.endpoint"
    else
      Except.ok (t, SchemaAction.noAction)

/-- The per-activation memoization around ensureSchema: the checked flag
set by a completed first call makes any further call in the same
activation an immediate no-op. -/
structure SchemaCtx where
  checked : Bool
  table : Table
deriving DecidableEq, Repr

/-- One call of ensureSchema as the method behaves, including the early
return on the memoization flag. -/
def ensureSchemaCall (c : SchemaCtx) : Except String (SchemaCtx × SchemaAction) :=
  if c.checked then Except.ok (c, SchemaAction.memoized)
  else
    match ensureSchema c.table with
    | Except.error e => Except.error e
    | Except.ok (t, a) => Except.ok ({ checked := true, table := t }, a)

/-! ## Reachable store contents -/

/-- Store contents of one partition reachable in the SQL variant from an
empty partition under the operations of the object: register (the
replace transaction), a delivery success (deleteAll), a delivery failure
(store untouched), and a schema check on the live, already-correct
schema (a no-op on data). -/
inductive ReachableSql : List SubscriptionRecord → Prop where
  | empty : ReachableSql []
  | register (s : List SubscriptionRecord) (r : SubscriptionRecord)
      (s1 : List SubscriptionRecord) :
      ReachableSql s → registerReplace s r = Except.ok s1 → ReachableSql s1
  | deliverOk (s : List SubscriptionRecord) : ReachableSql s → ReachableSql []
  | deliverFailKeep (s : List SubscriptionRecord) : ReachableSql s → ReachableSql s
  | migrateNoop (s : List SubscriptionRecord) : ReachableSql s → ReachableSql s

/-- Store contents reachable in the drizzle variant from an empty
partition: register is the upsert of create, delivery success clears the
store, delivery failure leaves it untouched. -/
inductive ReachableDrizzle : List SubscriptionRecord → Prop where
  | empty : ReachableDrizzle []
  | register (s : List SubscriptionRecord) (r : SubscriptionRecord) :
      ReachableDrizzle s → ReachableDrizzle (createUpsert s r)
  | deliverOk (s : List SubscriptionRecord) : ReachableDrizzle s → ReachableDrizzle []
  | deliverFailKeep (s : List SubscriptionRecord) : ReachableDrizzle s → ReachableDrizzle s

/-! ## Helper lemmas about the alarm handlers -/

/-- The debug PushSubscription the SQL alarm handler builds after a
successful primary send: the endpoint with its host replaced by
DEBUG_URL, same keys. -/
def debugPushSub (env : EnvCfg) (sub : SubscriptionRecord) : PushSubscription :=
  { endpoint := strReplaceFirst sub.endpoint (urlHost sub.endpoint) env.DEBUG_URL,
    p256dh := sub.keys_p256dh, auth := sub.keys_auth }

/-- Characterization of the SQL alarm handler when a record is stored and
both secrets are present: one primary send, and on its success one debug
send, deciding the final state. -/
theorem alarmSql_some (env : EnvCfg) (tr : Transport) (s : DOState)
    (sub : SubscriptionRecord) (hst : s.store.head? = some sub)
    (hv : env.VAPID_PRIVATE_KEY ≠ "") (hg : env.GCM_APIKey ≠ "") :
    alarmSql env tr s =
      match tr (toPushSub sub) pushPayload (mkOptionsSql env sub) with
      | Except.error _ =>
        { state := s,
          calls := [{ sub := toPushSub sub, payload := pushPayload,
                      options := mkOptionsSql env sub }],
          thrown := none }
      | Except.ok _ =>
        match tr (debugPushSub env sub) pushPayload (mkOptionsSql env sub) with
        | Except.error _ =>
          { state := s,
            calls := [{ sub := toPushSub sub, payload := pushPayload,
                        options := mkOptionsSql env sub },
                      { sub := debugPushSub env sub,
                        payload := pushPayload, options := mkOptionsSql env sub }],
            thrown := none }
        | Except.ok _ =>
          { state := { store := [], alarm := none },
            calls := [{ sub := toPushSub sub, payload := pushPayload,
                        options := mkOptionsSql env sub },
                      { sub := debugPushSub env sub,
                        payload := pushPayload, options := mkOptionsSql env sub }],
            thrown := none } := by
  unfold alarmSql
  rw [hst]
  simp [hv, hg, toPushSub, debugPushSub]

/-- Characterization of the drizzle alarm handler when a record is stored
and both secrets are present: exactly one send, its outcome deciding the
final state. -/
theorem alarmDrizzle_some (env : EnvCfg) (tr : Transport) (s : DOState)
    (sub : SubscriptionRecord) (hst : s.store.head? = some sub)
    (hv : env.VAPID_PRIVATE_KEY ≠ "") (hg : env.GCM_APIKey ≠ "") :
    alarmDrizzle env tr s =
      match tr (toPushSub sub) pushPayload (mkOptionsDrizzle env) with
      | Except.error _ =>
        { state := s,
          calls := [{ sub := toPushSub sub, payload := pushPayload,
                      options := mkOptionsDrizzle env }],
          thrown := none }
      | Except.ok _ =>
        { state := { store := [], alarm := none },
          calls := [{ sub := toPushSub sub, payload := pushPayload,
                      options := mkOptionsDrizzle env }],
          thrown := none } := by
  unfold alarmDrizzle
  rw [hst]
  simp [hv, hg, toPushSub]

/-! ## Claim C1 -/

/-- Claim C1, counterexample. The claim asserts that every pair of
register events leaves the store holding exactly the second record
because each register deletes all rows before inserting. In the drizzle
variant the register path is the upsert create of db/index.ts: two
registers with distinct endpoints leave both records, not just the
second one. -/
theorem C1_upsert_counterexample :
    createUpsert (createUpsert []
        { endpoint := "https://push.a/1", keys_p256dh := "p1", keys_auth := "a1" })
        { endpoint := "https://push.b/2", keys_p256dh := "p2", keys_auth := "a2" } ≠
      [{ endpoint := "https://push.b/2", keys_p256dh := "p2", keys_auth := "a2" }] := by
  decide

/-- Claim C1, amended. In the SQL variant, register really is
delete-all-then-insert: from any store, two consecutive registers
succeed (no primary-key failure is possible) and leave exactly the
second record. In the drizzle variant, register is an upsert keyed by
endpoint: starting from empty, two registers leave exactly the second
record when the endpoints coincide, and both records otherwise. -/
theorem C1_register_replace_amended (s : List SubscriptionRecord)
    (A B : SubscriptionRecord) :
    ((registerReplace s A).bind (fun s1 => registerReplace s1 B) = Except.ok [B]) ∧
    (createUpsert (createUpsert [] A) B =
      if A.endpoint = B.endpoint then [B] else [A, B]) := by
  constructor
  · rfl
  · by_cases h : A.endpoint = B.endpoint <;> simp [createUpsert, h]

/-! ## Claim C2 -/

/-- Claim C2: a register event sets a fresh alarm at now plus the fixed
delay exactly when no alarm exists or the existing one has matured
(value at or before now); an unmatured alarm is left untouched, and two
registers before the first alarm matures leave exactly the one alarm
armed by the first register. -/
theorem C2_arm_if_absent (now : Nat) (al : Option Nat) :
    ((registerAlarm now al).2 = true ↔ (al = none ∨ ∃ t, al = some t ∧ t ≤ now)) ∧
    ((registerAlarm now al).2 = true →
      (registerAlarm now al).1 = some (now + armDelayMs)) ∧
    ((registerAlarm now al).2 = false → (registerAlarm now al).1 = al) ∧
    (∀ n1 n2 : Nat, n2 < n1 + armDelayMs →
      registerAlarm n2 (registerAlarm n1 none).1 = (some (n1 + armDelayMs), false)) := by
  refine ⟨?_, ?_, ?_, ?_⟩
  · cases al with
    | none => simp [registerAlarm]
    | some t => by_cases h : t ≤ now <;> simp [registerAlarm, h]
  · intro h
    cases al with
    | none => simp [registerAlarm]
    | some t =>
      by_cases ht : t ≤ now
      · simp [registerAlarm, ht]
      · simp [registerAlarm, ht] at h
  · intro h
    cases al with
    | none => simp [registerAlarm] at h
    | some t =>
      by_cases ht : t ≤ now
      · simp [registerAlarm, ht] at h
      · simp [registerAlarm, ht]
  · intro n1 n2 h
    have hn : ¬ (n1 + armDelayMs ≤ n2) := by omega
    simp [registerAlarm, hn]

/-- Claim C2, witness: with an alarm armed at time 0, a second register
at time 5000 leaves the single original alarm untouched. -/
theorem C2_arm_if_absent_witness :
    registerAlarm 5000 (registerAlarm 0 none).1 = (some (0 + armDelayMs), false) :=
  (C2_arm_if_absent 0 none).2.2.2 0 5000 (by decide)

/-! ## Claim C10 -/

/-- Claim C10: whenever a register event arms or re-arms the alarm, the
wake-up time equals now plus exactly 10000 milliseconds, in both the SQL
and the drizzle variant, which share the identical alarm logic. -/
theorem C10_fixed_delay (now : Nat) (al : Option Nat) :
    armDelayMs = 10000 ∧
    ((registerAlarm now al).2 = true → (registerAlarm now al).1 = some (now + 10000)) ∧
    ((registerAlarmDrizzle now al).2 = true →
      (registerAlarmDrizzle now al).1 = some (now + 10000)) ∧
    registerAlarmDrizzle now al = registerAlarm now al := by
  refine ⟨rfl, ?_, ?_, rfl⟩ <;>
  · intro h
    cases al with
    | none => simp [registerAlarm, registerAlarmDrizzle, armDelayMs]
    | some t =>
      by_cases ht : t ≤ now
      · simp [registerAlarm, registerAlarmDrizzle, ht, armDelayMs]
      · simp [registerAlarm, registerAlarmDrizzle, ht] at h

/-- Claim C10, witness: a register at time 7 with no alarm set arms the
alarm for time 7 + 10000 in the SQL variant. -/
theorem C10_fixed_delay_witness :
    (registerAlarm 7 none).1 = some (7 + 10000) :=
  (C10_fixed_delay 7 none).2.1 rfl

/-! ## Claim C7 -/

/-- Claim C7, counterexample. In the drizzle variant the state reached
from an empty partition by registering two records with distinct
endpoints holds two rows, violating the claimed 0-or-1 row-count
invariant. -/
theorem C7_row_count_counterexample :
    ReachableDrizzle
      [{ endpoint := "https://push.a/1", keys_p256dh := "p1", keys_auth := "a1" },
       { endpoint := "https://push.b/2", keys_p256dh := "p2", keys_auth := "a2" }] ∧
    ¬ (List.length
        [({ endpoint := "https://push.a/1", keys_p256dh := "p1", keys_auth := "a1" } :
            SubscriptionRecord),
         { endpoint := "https://push.b/2", keys_p256dh := "p2", keys_auth := "a2" }] ≤ 1) := by
  constructor
  · have h := ReachableDrizzle.register _
      { endpoint := "https://push.b/2", keys_p256dh := "p2", keys_auth := "a2" }
      (ReachableDrizzle.register _
        { endpoint := "https://push.a/1", keys_p256dh := "p1", keys_auth := "a1" }
        ReachableDrizzle.empty)
    have e : createUpsert (createUpsert []
        { endpoint := "https://push.a/1", keys_p256dh := "p1", keys_auth := "a1" })
        { endpoint := "https://push.b/2", keys_p256dh := "p2", keys_auth := "a2" } =
        [{ endpoint := "https://push.a/1", keys_p256dh := "p1", keys_auth := "a1" },
         { endpoint := "https://push.b/2", keys_p256dh := "p2", keys_auth := "a2" }] := by
      decide
    rw [e] at h
    exact h
  · decide

/-- Claim C7, amended: in the SQL variant the invariant does hold —
every store reachable from an empty partition through register, delivery
success, delivery failure and live-schema checks has at most one row. -/
theorem C7_row_count_amended (s : List SubscriptionRecord)
    (h : ReachableSql s) : s.length ≤ 1 := by
  induction h with
  | empty => simp
  | register s r s1 hs hr ih =>
    have hr1 : s1 = [r] := by
      simpa [registerReplace, insertRow, deleteAllRows] using hr.symm
    simp [hr1]
  | deliverOk s hs ih => simp
  | deliverFailKeep s hs ih => exact ih
  | migrateNoop s hs ih => exact ih

/-- Claim C7, witness: the store reached by one register from empty has
at most one row. -/
theorem C7_row_count_amended_witness :
    List.length
      [({ endpoint := "https://push.a/1", keys_p256dh := "p", keys_auth := "a" } :
          SubscriptionRecord)] ≤ 1 :=
  C7_row_count_amended _
    (ReachableSql.register []
      { endpoint := "https://push.a/1", keys_p256dh := "p", keys_auth := "a" }
      [{ endpoint := "https://push.a/1", keys_p256dh := "p", keys_auth := "a" }]
      ReachableSql.empty rfl)

/-! ## Claim C4 -/

/-- Claim C4: when a timer fires with a non-empty store and the delivery
transport fails, the handler takes no corrective action — the stored
record and the already-cleared alarm slot stay exactly as they were, no
retry alarm is armed, and the error is swallowed (the handler returns
normally after exactly one delivery attempt). -/
theorem C4_delivery_failure_no_action (env : EnvCfg) (tr : Transport)
    (s : DOState) (sub : SubscriptionRecord)
    (hst : s.store.head? = some sub) (hal : s.alarm = none)
    (hv : env.VAPID_PRIVATE_KEY ≠ "") (hg : env.GCM_APIKey ≠ "")
    (hfail : ∀ ps pay o, ∃ e, tr ps pay o = Except.error e) :
    (alarmSql env tr s).thrown = none ∧
    (alarmSql env tr s).state = s ∧
    (alarmSql env tr s).state.alarm = none ∧
    (alarmSql env tr s).calls.length = 1 := by
  obtain ⟨e, he⟩ := hfail (toPushSub sub) pushPayload (mkOptionsSql env sub)
  rw [alarmSql_some env tr s sub hst hv hg, he]
  exact ⟨rfl, rfl, hal, rfl⟩

/-- Claim C4, witness: a concrete firing with the transport stubbed to
fail with status 410 leaves the record in place, arms nothing and
returns normally. -/
theorem C4_delivery_failure_no_action_witness :
    (alarmSql { VAPID_PUBLIC_KEY := "PUB", VAPID_PRIVATE_KEY := "PRIV",
                GCM_APIKey := "GCMKEY", DEBUG_URL := "debug.example" }
        (fun _ _ _ => Except.error
          { statusCode := 410, body := "gone", headers := [],
            endpoint := "https://push.example/abc" })
        { store := [{ endpoint := "https://push.example/abc",
                      keys_p256dh := "P", keys_auth := "A" }], alarm := none }).thrown
        = none ∧
    (alarmSql { VAPID_PUBLIC_KEY := "PUB", VAPID_PRIVATE_KEY := "PRIV",
                GCM_APIKey := "GCMKEY", DEBUG_URL := "debug.example" }
        (fun _ _ _ => Except.error
          { statusCode := 410, body := "gone", headers := [],
            endpoint := "https://push.example/abc" })
        { store := [{ endpoint := "https://push.example/abc",
                      keys_p256dh := "P", keys_auth := "A" }], alarm := none }).state
        = { store := [{ endpoint := "https://push.example/abc",
                        keys_p256dh := "P", keys_auth := "A" }], alarm := none } ∧
    (alarmSql { VAPID_PUBLIC_KEY := "PUB", VAPID_PRIVATE_KEY := "PRIV",
                GCM_APIKey := "GCMKEY", DEBUG_URL := "debug.example" }
        (fun _ _ _ => Except.error
          { statusCode := 410, body := "gone", headers := [],
            endpoint := "https://push.example/abc" })
        { store := [{ endpoint := "https://push.example/abc",
                      keys_p256dh := "P", keys_auth := "A" }], alarm := none }).state.alarm
        = none ∧
    (alarmSql { VAPID_PUBLIC_KEY := "PUB", VAPID_PRIVATE_KEY := "PRIV",
                GCM_APIKey := "GCMKEY", DEBUG_URL := "debug.example" }
        (fun _ _ _ => Except.error
          { statusCode := 410, body := "gone", headers := [],
            endpoint := "https://push.example/abc" })
        { store := [{ endpoint := "https://push.example/abc",
                      keys_p256dh := "P", keys_auth := "A" }], alarm := none }).calls.length
        = 1 :=
  C4_delivery_failure_no_action _ _ _
    { endpoint := "https://push.example/abc", keys_p256dh := "P", keys_auth := "A" }
    rfl rfl (by decide) (by decide) (fun _ _ _ => ⟨_, rfl⟩)

/-! ## Claim C5 -/

/-- Claim C5: when a timer fires with a stored record, both secrets
present, and the delivery transport succeeding, the handler deletes the
alarm and the whole store — afterwards the partition store is empty and
no wake-up time is set, and the handler returns normally. -/
theorem C5_delivery_success_clears (env : EnvCfg) (tr : Transport)
    (s : DOState) (sub : SubscriptionRecord)
    (hst : s.store.head? = some sub)
    (hv : env.VAPID_PRIVATE_KEY ≠ "") (hg : env.GCM_APIKey ≠ "")
    (hok : ∀ ps pay o, ∃ r, tr ps pay o = Except.ok r) :
    (alarmSql env tr s).state.store = [] ∧
    (alarmSql env tr s).state.alarm = none ∧
    (alarmSql env tr s).thrown = none := by
  obtain ⟨r1, h1⟩ := hok (toPushSub sub) pushPayload (mkOptionsSql env sub)
  obtain ⟨r2, h2⟩ := hok (debugPushSub env sub) pushPayload (mkOptionsSql env sub)
  rw [alarmSql_some env tr s sub hst hv hg, h1, h2]
  exact ⟨rfl, rfl, rfl⟩

/-- Claim C5, witness: the end-to-end scenario of the spec — a concrete
record, the transport stubbed to return status 201 — leaves an empty
store and no wake-up time. -/
theorem C5_delivery_success_clears_witness :
    (alarmSql { VAPID_PUBLIC_KEY := "PUB", VAPID_PRIVATE_KEY := "PRIV",
                GCM_APIKey := "GCMKEY", DEBUG_URL := "debug.example" }
        (fun _ _ _ => Except.ok { statusCode := 201, body := "created" })
        { store := [{ endpoint := "https://push.example/abc",
                      keys_p256dh := "P", keys_auth := "A" }], alarm := none }).state.store
        = [] ∧
    (alarmSql { VAPID_PUBLIC_KEY := "PUB", VAPID_PRIVATE_KEY := "PRIV",
                GCM_APIKey := "GCMKEY", DEBUG_URL := "debug.example" }
        (fun _ _ _ => Except.ok { statusCode := 201, body := "created" })
        { store := [{ endpoint := "https://push.example/abc",
                      keys_p256dh := "P", keys_auth := "A" }], alarm := none }).state.alarm
        = none ∧
    (alarmSql { VAPID_PUBLIC_KEY := "PUB", VAPID_PRIVATE_KEY := "PRIV",
                GCM_APIKey := "GCMKEY", DEBUG_URL := "debug.example" }
        (fun _ _ _ => Except.ok { statusCode := 201, body := "created" })
        { store := [{ endpoint := "https://push.example/abc",
                      keys_p256dh := "P", keys_auth := "A" }], alarm := none }).thrown
        = none :=
  C5_delivery_success_clears _ _ _
    { endpoint := "https://push.example/abc", keys_p256dh := "P", keys_auth := "A" }
    rfl (by decide) (by decide) (fun _ _ _ => ⟨_, rfl⟩)

/-! ## Claim C9 -/

/-- Claim C9, counterexample. The claim asserts that a timer firing with
a stored record but a missing configuration secret aborts so that the
caller sees a failure. In the code the missing-secret check throws
inside the try block whose catch swallows every error: with the VAPID
private key absent the handler returns normally (thrown is none), so the
caller sees no failure. -/
theorem C9_config_error_counterexample :
    ¬ ((alarmSql { VAPID_PUBLIC_KEY := "PUB", VAPID_PRIVATE_KEY := "",
                   GCM_APIKey := "GCMKEY", DEBUG_URL := "debug.example" }
        (fun _ _ _ => Except.ok { statusCode := 201, body := "created" })
        { store := [{ endpoint := "https://push.example/abc",
                      keys_p256dh := "P", keys_auth := "A" }],
          alarm := none }).thrown.isSome = true) := by
  decide

/-- Claim C9, amended: when a timer fires with a stored record but a
required secret absent (the VAPID private key, or the GCM API key with
the VAPID key present), the configuration error is caught by the
handler's catch-all: no transport call is made, the durable state is
left unchanged, and the handler returns normally — the caller sees
success, not a failure. -/
theorem C9_config_error_swallowed (env : EnvCfg) (tr : Transport)
    (s : DOState) (sub : SubscriptionRecord)
    (hst : s.store.head? = some sub)
    (hmiss : env.VAPID_PRIVATE_KEY = "" ∨
      (env.VAPID_PRIVATE_KEY ≠ "" ∧ env.GCM_APIKey = "")) :
    alarmSql env tr s = { state := s, calls := [], thrown := none } := by
  unfold alarmSql
  rw [hst]
  rcases hmiss with h | ⟨h1, h2⟩
  · simp [h]
  · simp [h1, h2]

/-- Claim C9, witness: a concrete firing with the GCM API key absent is
swallowed, leaving state untouched and making no transport call. -/
theorem C9_config_error_swallowed_witness :
    alarmSql { VAPID_PUBLIC_KEY := "PUB", VAPID_PRIVATE_KEY := "PRIV",
               GCM_APIKey := "", DEBUG_URL := "debug.example" }
        (fun _ _ _ => Except.ok { statusCode := 201, body := "created" })
        { store := [{ endpoint := "https://push.example/abc",
                      keys_p256dh := "P", keys_auth := "A" }], alarm := none } =
      { state := { store := [{ endpoint := "https://push.example/abc",
                               keys_p256dh := "P", keys_auth := "A" }], alarm := none },
        calls := [], thrown := none } :=
  C9_config_error_swallowed _ _ _
    { endpoint := "https://push.example/abc", keys_p256dh := "P", keys_auth := "A" }
    rfl (Or.inr ⟨by decide, rfl⟩)

/-! ## Claim C6 -/

/-- Claim C6, counterexample. The claim asserts the timer handler
invokes the delivery transport exactly once. In the SQL variant a
successful primary send is followed by a second send to the debug
endpoint: with the transport stubbed to return 201 the handler makes
two transport calls, not one. -/
theorem C6_two_sends_counterexample :
    ((alarmSql { VAPID_PUBLIC_KEY := "PUB", VAPID_PRIVATE_KEY := "PRIV",
                 GCM_APIKey := "GCMKEY", DEBUG_URL := "debug.example" }
        (fun _ _ _ => Except.ok { statusCode := 201, body := "created" })
        { store := [{ endpoint := "https://push.example/abc",
                      keys_p256dh := "P", keys_auth := "A" }],
          alarm := none }).calls.length = 2) ∧
    ¬ ((alarmSql { VAPID_PUBLIC_KEY := "PUB", VAPID_PRIVATE_KEY := "PRIV",
                   GCM_APIKey := "GCMKEY", DEBUG_URL := "debug.example" }
        (fun _ _ _ => Except.ok { statusCode := 201, body := "created" })
        { store := [{ endpoint := "https://push.example/abc",
                      keys_p256dh := "P", keys_auth := "A" }],
          alarm := none }).calls.length = 1) := by
  decide

/-- Claim C6, amended: with a stored record and both secrets present,
every transport call of the SQL handler carries the GCM API key exactly
when the endpoint host contains fcm.googleapis.com; the SQL handler
makes one call when the primary send fails and two (the second to the
debug endpoint) when it succeeds; the drizzle handler makes exactly one
call but attaches the GCM API key unconditionally. -/
theorem C6_transport_calls (env : EnvCfg) (tr : Transport) (s : DOState)
    (sub : SubscriptionRecord)
    (hst : s.store.head? = some sub)
    (hv : env.VAPID_PRIVATE_KEY ≠ "") (hg : env.GCM_APIKey ≠ "") :
    (∀ c ∈ (alarmSql env tr s).calls,
      c.options.gcmAPIKey =
        if strIncludes (urlHost sub.endpoint) "fcm.googleapis.com" then
          some env.GCM_APIKey else none) ∧
    ((alarmSql env tr s).calls.length =
      match tr (toPushSub sub) pushPayload (mkOptionsSql env sub) with
      | Except.ok _ => 2
      | Except.error _ => 1) ∧
    (alarmDrizzle env tr s).calls.length = 1 ∧
    (∀ c ∈ (alarmDrizzle env tr s).calls,
      c.options.gcmAPIKey = some env.GCM_APIKey) := by
  rw [alarmSql_some env tr s sub hst hv hg, alarmDrizzle_some env tr s sub hst hv hg]
  cases h1 : tr (toPushSub sub) pushPayload (mkOptionsSql env sub) with
  | error e1 =>
    cases h3 : tr (toPushSub sub) pushPayload (mkOptionsDrizzle env) with
    | error e3 => simp [mkOptionsSql, mkOptionsDrizzle]
    | ok r3 => simp [mkOptionsSql, mkOptionsDrizzle]
  | ok r1 =>
    cases h2 : tr (debugPushSub env sub) pushPayload (mkOptionsSql env sub) with
    | error e2 =>
      cases h3 : tr (toPushSub sub) pushPayload (mkOptionsDrizzle env) with
      | error e3 => simp [mkOptionsSql, mkOptionsDrizzle]
      | ok r3 => simp [mkOptionsSql, mkOptionsDrizzle]
    | ok r2 =>
      cases h3 : tr (toPushSub sub) pushPayload (mkOptionsDrizzle env) with
      | error e3 => simp [mkOptionsSql, mkOptionsDrizzle]
      | ok r3 => simp [mkOptionsSql, mkOptionsDrizzle]

/-- Claim C6, witness: a concrete firing at a non-FCM endpoint with a
failing transport makes one SQL call without the GCM key and one drizzle
call with it. -/
theorem C6_transport_calls_witness :
    (∀ c ∈ (alarmSql { VAPID_PUBLIC_KEY := "PUB", VAPID_PRIVATE_KEY := "PRIV",
                       GCM_APIKey := "GCMKEY", DEBUG_URL := "debug.example" }
        (fun _ _ _ => Except.error
          { statusCode := 410, body := "gone", headers := [],
            endpoint := "https://push.example/abc" })
        { store := [{ endpoint := "https://push.example/abc",
                      keys_p256dh := "P", keys_auth := "A" }], alarm := none }).calls,
      c.options.gcmAPIKey =
        if strIncludes (urlHost "https://push.example/abc") "fcm.googleapis.com" then
          some "GCMKEY" else none) ∧
    ((alarmSql { VAPID_PUBLIC_KEY := "PUB", VAPID_PRIVATE_KEY := "PRIV",
                 GCM_APIKey := "GCMKEY", DEBUG_URL := "debug.example" }
        (fun _ _ _ => Except.error
          { statusCode := 410, body := "gone", headers := [],
            endpoint := "https://push.example/abc" })
        { store := [{ endpoint := "https://push.example/abc",
                      keys_p256dh := "P", keys_auth := "A" }], alarm := none }).calls.length =
      match (fun _ _ _ => Except.error
          { statusCode := 410, body := "gone", headers := [],
            endpoint := "https://push.example/abc" } : Transport)
          (toPushSub { endpoint := "https://push.example/abc",
                       keys_p256dh := "P", keys_auth := "A" }) pushPayload
          (mkOptionsSql { VAPID_PUBLIC_KEY := "PUB", VAPID_PRIVATE_KEY := "PRIV",
                          GCM_APIKey := "GCMKEY", DEBUG_URL := "debug.example" }
            { endpoint := "https://push.example/abc",
              keys_p256dh := "P", keys_auth := "A" }) with
      | Except.ok _ => 2
      | Except.error _ => 1) ∧
    (alarmDrizzle { VAPID_PUBLIC_KEY := "PUB", VAPID_PRIVATE_KEY := "PRIV",
                    GCM_APIKey := "GCMKEY", DEBUG_URL := "debug.example" }
        (fun _ _ _ => Except.error
          { statusCode := 410, body := "gone", headers := [],
            endpoint := "https://push.example/abc" })
        { store := [{ endpoint := "https://push.example/abc",
                      keys_p256dh := "P", keys_auth := "A" }], alarm := none }).calls.length
        = 1 ∧
    (∀ c ∈ (alarmDrizzle { VAPID_PUBLIC_KEY := "PUB", VAPID_PRIVATE_KEY := "PRIV",
                           GCM_APIKey := "GCMKEY", DEBUG_URL := "debug.example" }
        (fun _ _ _ => Except.error
          { statusCode := 410, body := "gone", headers := [],
            endpoint := "https://push.example/abc" })
        { store := [{ endpoint := "https://push.example/abc",
                      keys_p256dh := "P", keys_auth := "A" }], alarm := none }).calls,
      c.options.gcmAPIKey = some "GCMKEY") :=
  C6_transport_calls _ _ _
    { endpoint := "https://push.example/abc", keys_p256dh := "P", keys_auth := "A" }
    rfl (by decide) (by decide)

/-! ## Claim C3 -/

/-- Claim C3: the claimed migration round-trip fails on the code. A
table holding rows with duplicate endpoint values necessarily has the
endpoint column, so a missing expected column is keys_p256dh or
keys_auth; the migration then issues the GROUP BY copy statement that
references both key columns verbatim, and SQLite aborts the transaction
with a no-such-column error instead of substituting the empty string
(the selectParts substitution is computed but unused on this branch). -/
theorem C3_migration_missing_column_fails :
    ensureSchema
      { cols := [{ name := "endpoint", pk := 1 }, { name := "keys_auth", pk := 0 }],
        rows := [[("endpoint", "https://push.example/e1"), ("keys_auth", "a1")],
                 [("endpoint", "https://push.example/e1"), ("keys_auth", "a2")]] } =
      Except.error "no such column: keys_p256dh" := by
  rfl

/-! ## Claim C8 -/

/-- Claim C8: on a table already carrying the expected columns with
endpoint as primary key, ensureSchema makes no change and takes no
migration action, and a repeated call in the same activation is a
memoized no-op — so two calls in a row change nothing and issue no
migration writes. -/
theorem C8_ensure_schema_idempotent (t : Table) (info : Col)
    (h1 : "endpoint" ∈ t.cols.map Col.name)
    (h2 : "keys_p256dh" ∈ t.cols.map Col.name)
    (h3 : "keys_auth" ∈ t.cols.map Col.name)
    (h4 : t.cols.find? (fun c => c.name == "endpoint") = some info)
    (h5 : info.pk ≠ 0) :
    ensureSchema t = Except.ok (t, SchemaAction.noAction) ∧
    ensureSchemaCall { checked := false, table := t } =
      Except.ok ({ checked := true, table := t }, SchemaAction.noAction) ∧
    ensureSchemaCall { checked := true, table := t } =
      Except.ok ({ checked := true, table := t }, SchemaAction.memoized) := by
  have hne : (t.cols.map Col.name).isEmpty = false := by
    cases hc : t.cols.map Col.name with
    | nil => rw [hc] at h1; simp at h1
    | cons a l => rfl
  obtain ⟨ce, hce, hcen⟩ := List.mem_map.mp h1
  obtain ⟨cp, hcp, hcpn⟩ := List.mem_map.mp h2
  obtain ⟨ca, hca, hcan⟩ := List.mem_map.mp h3
  have hmain : ensureSchema t = Except.ok (t, SchemaAction.noAction) := by
    unfold ensureSchema
    simp only [hne, Bool.false_eq_true, if_false, expectedCols, h4, h5]
    simp [h4, h5]
    intro h
    exfalso
    rcases h with h | h | h
    · exact h ce hce hcen
    · exact h cp hcp hcpn
    · exact h ca hca hcan
  refine ⟨hmain, ?_, rfl⟩
  unfold ensureSchemaCall
  simp [hmain]

/-- Claim C8, witness: two consecutive calls on the freshly created,
already-correct table change nothing and take no migration action. -/
theorem C8_ensure_schema_idempotent_witness :
    ensureSchema { cols := freshCols, rows := [] } =
      Except.ok ({ cols := freshCols, rows := [] }, SchemaAction.noAction) ∧
    ensureSchemaCall { checked := false, table := { cols := freshCols, rows := [] } } =
      Except.ok ({ checked := true, table := { cols := freshCols, rows := [] } },
        SchemaAction.noAction) ∧
    ensureSchemaCall { checked := true, table := { cols := freshCols, rows := [] } } =
      Except.ok ({ checked := true, table := { cols := freshCols, rows := [] } },
        SchemaAction.memoized) :=
  C8_ensure_schema_idempotent _ { name := "endpoint", pk := 1 }
    (by decide) (by decide) (by decide) rfl (by decide)
